import Mathlib

/-!
Shallow embedding of the Copperhead snake game simulation (src/main.rs).
Rendering and windowing code is out of scope; the embedding covers the data
model (Direction, GameState, Snake, Game), the per-tick simulation
(Snake.update, Game.update), input handling (Game.pressed and the main
loop's pending-direction buffer), food placement (rejection sampling,
modelled with an explicit list of random draws standing for the RNG
stream), and reset.

Machine integers: i32 coordinates are modelled as Int and u32 scores as
Nat; reachable coordinates stay within [-1, 20] and scores stay far below
2^32, so wrapping never occurs on the values any claim touches.
-/

namespace Copperhead

/-- GRID_SIZE from main.rs line 10: a 20 by 20 grid. -/
def GRID_SIZE : Int × Int := (20, 20)

/-- Direction enum (main.rs lines 21-24). -/
inductive Direction where
  | Left
  | Right
  | Up
  | Down
deriving DecidableEq

/-- GameState enum (main.rs lines 26-31). -/
inductive GameState where
  | Start
  | Running
  | GameOver
deriving DecidableEq

/-- Snake struct (main.rs lines 41-45). The body list is ordered front to
back: the head is the first element (LinkedList, push_front inserts at the
head, pop_back removes the last element). -/
structure Snake where
  body : List (Int × Int)
  dir : Direction
  grow_on_next : Bool
deriving DecidableEq

/-- Game struct (main.rs lines 33-39). -/
structure Game where
  snake : Snake
  food : Int × Int
  score : Nat
  high_score : Nat
  state : GameState
deriving DecidableEq

/-- Keyboard keys the program distinguishes (arrow keys and Space); every
other key falls into the catch-all arm of the source matches. -/
inductive Key where
  | Up
  | Down
  | Left
  | Right
  | Space
  | Other
deriving DecidableEq

/-- Snake::new (main.rs lines 227-239): three segments pushed back in order
(x, y), (x-1, y), (x-2, y) with x = GRID_SIZE.0/2 and y = GRID_SIZE.1/2, so
the front (head) is the centre cell; heading Right; no pending growth. -/
def Snake.new : Snake :=
  let y := GRID_SIZE.2 / 2
  let x := GRID_SIZE.1 / 2
  { body := [(x, y), (x - 1, y), (x - 2, y)]
    dir := Direction.Right
    grow_on_next := false }

/-- Snake::update (main.rs lines 316-332). Returns none exactly when the
source would panic (empty body in body.front().expect). Otherwise: offset
the head one cell along dir, push the new head at the front, set ate to
(new_head == food); pop the back iff not ate and not grow_on_next; clear
grow_on_next (keeping the tail) when it was set. -/
def Snake.update (s : Snake) (food : Int × Int) : Option (Snake × Bool) :=
  match s.body with
  | [] => none
  | h :: t =>
    let new_head : Int × Int :=
      match s.dir with
      | Direction.Left => (h.1 - 1, h.2)
      | Direction.Right => (h.1 + 1, h.2)
      | Direction.Up => (h.1, h.2 - 1)
      | Direction.Down => (h.1, h.2 + 1)
    let body2 := new_head :: h :: t
    let ate : Bool := new_head = food
    if !ate && !s.grow_on_next then
      some ({ s with body := body2.dropLast }, ate)
    else if s.grow_on_next then
      some ({ s with body := body2, grow_on_next := false }, ate)
    else
      some ({ s with body := body2 }, ate)

/-- Snake::grow (main.rs lines 333-335). -/
def Snake.grow (s : Snake) : Snake :=
  { s with grow_on_next := true }

/-- Snake::head (main.rs lines 336-338); none when the source would panic
on the unwrap of an empty body. -/
def Snake.head (s : Snake) : Option (Int × Int) :=
  s.body.head?

/-- Snake::self_collision (main.rs lines 339-342): whether any body cell
after the first equals the head; none when head() would panic. -/
def Snake.self_collision (s : Snake) : Option Bool :=
  match s.body with
  | [] => none
  | h :: t => some (t.any (fun p => p = h))

/-- The rejection-sampling loop of Game::spawn_food (main.rs lines
204-216), with the RNG stream made explicit as a list of draws: the result
is the first draw not contained in the body, none if the stream runs out
(the source loop would keep drawing forever). -/
def spawn_food_from (body : List (Int × Int)) :
    List (Int × Int) → Option (Int × Int)
  | [] => none
  | p :: rest =>
    if body.contains p then spawn_food_from body rest else some p

/-- Game::spawn_food (main.rs lines 204-216): assign the first free draw to
food, leaving every other field unchanged. -/
def Game.spawn_food (g : Game) (draws : List (Int × Int)) : Option Game :=
  (spawn_food_from g.snake.body draws).map (fun p => { g with food := p })

/-- Game::reset (main.rs lines 218-223): fresh snake, zero score, back to
Start, then spawn food (high_score untouched). -/
def Game.reset (g : Game) (draws : List (Int × Int)) : Option Game :=
  Game.spawn_food
    { g with snake := Snake.new, score := 0, state := GameState.Start }
    draws

/-- Game::update (main.rs lines 150-172): no-op unless Running; move the
snake; on ate increment the score, set the grow flag and respawn food; then
test the (new) head against the walls and the body for the GameOver
transition, updating high_score when the final score beats it. -/
def Game.update (g : Game) (draws : List (Int × Int)) : Option Game :=
  if g.state ≠ GameState.Running then some g
  else
    match g.snake.update g.food with
    | none => none
    | some (s1, ate) =>
      let afterFood : Option Game :=
        if ate then
          Game.spawn_food
            { g with snake := s1.grow, score := g.score + 1 } draws
        else some { g with snake := s1 }
      match afterFood with
      | none => none
      | some g2 =>
        match g2.snake.head, g2.snake.self_collision with
        | some (x, y), some sc =>
          if x < 0 || GRID_SIZE.1 ≤ x || y < 0 || GRID_SIZE.2 ≤ y || sc then
            some { g2 with
                    state := GameState.GameOver
                    high_score :=
                      if g2.score > g2.high_score then g2.score
                      else g2.high_score }
          else some g2
        | _, _ => none

/-- Game::pressed (main.rs lines 175-202): Space starts from Start, resets
from GameOver; in Running the arrow keys propose a heading change that is
kept only when it is not the reverse of the current heading (the guards on
the match arms); every other key keeps the current heading. -/
def Game.pressed (g : Game) (btn : Key) (draws : List (Int × Int)) :
    Option Game :=
  match g.state with
  | GameState.Start =>
    if btn = Key.Space then some { g with state := GameState.Running }
    else some g
  | GameState.GameOver =>
    if btn = Key.Space then g.reset draws
    else some g
  | GameState.Running =>
    let last_direction := g.snake.dir
    let d : Direction :=
      match btn with
      | Key.Up =>
        if last_direction ≠ Direction.Down then Direction.Up
        else last_direction
      | Key.Down =>
        if last_direction ≠ Direction.Up then Direction.Down
        else last_direction
      | Key.Left =>
        if last_direction ≠ Direction.Right then Direction.Left
        else last_direction
      | Key.Right =>
        if last_direction ≠ Direction.Left then Direction.Right
        else last_direction
      | _ => last_direction
    some { g with snake := { g.snake with dir := d } }

/-- The pending-direction application in main (main.rs lines 486-494),
performed at each move interval before game.update() regardless of the
game state; same reversal guard as Game::pressed. -/
def Game.apply_pending (g : Game) (dir : Direction) : Game :=
  let last_direction := g.snake.dir
  let d : Direction :=
    match dir with
    | Direction.Up =>
      if last_direction ≠ Direction.Down then Direction.Up
      else last_direction
    | Direction.Down =>
      if last_direction ≠ Direction.Up then Direction.Down
      else last_direction
    | Direction.Left =>
      if last_direction ≠ Direction.Right then Direction.Left
      else last_direction
    | Direction.Right =>
      if last_direction ≠ Direction.Left then Direction.Right
      else last_direction
  { g with snake := { g.snake with dir := d } }

/-- The initial Game built in main (main.rs lines 444-451): fresh snake,
food placeholder (5,5), zero scores, Start; followed immediately by
spawn_food. -/
def Game.init (draws : List (Int × Int)) : Option Game :=
  Game.spawn_food
    { snake := Snake.new
      food := (5, 5)
      score := 0
      high_score := 0
      state := GameState.Start }
    draws

/-- Which keys the main loop treats as directional (main.rs lines
462-468). -/
def keyDir : Key → Option Direction
  | Key.Up => some Direction.Up
  | Key.Down => some Direction.Down
  | Key.Left => some Direction.Left
  | Key.Right => some Direction.Right
  | _ => none

/-- The key-press handling of the main event loop (main.rs lines 459-475).
The loop state pairs the game with the single-slot pending-direction
buffer. When a direction is already pending the whole press is dropped;
otherwise a directional key is buffered and any other key is dispatched to
Game::pressed. -/
def main_key (st : Game × Option Direction) (k : Key)
    (draws : List (Int × Int)) : Option (Game × Option Direction) :=
  match st.2 with
  | some _ => some st
  | none =>
    match keyDir k with
    | some d => some (st.1, some d)
    | none => (st.1.pressed k draws).map (fun g => (g, st.2))

/-- The move-interval branch of the main event loop (main.rs lines
484-498): take and apply the pending direction if any, then run
game.update(). -/
def main_tick (st : Game × Option Direction) (draws : List (Int × Int)) :
    Option (Game × Option Direction) :=
  let g1 :=
    match st.2 with
    | some d => st.1.apply_pending d
    | none => st.1
  (g1.update draws).map (fun g2 => (g2, none))

/-- One externally driven step of the simulation: a tick (Game::update), a
key press dispatched to Game::pressed, or the application of a buffered
pending direction. Every behaviour of the main loop is a sequence of
these. -/
inductive Event where
  | tick (draws : List (Int × Int))
  | key (k : Key) (draws : List (Int × Int))
  | applyPending (d : Direction)

def Game.step (g : Game) : Event → Option Game
  | Event.tick draws => g.update draws
  | Event.key k draws => g.pressed k draws
  | Event.applyPending d => some (g.apply_pending d)

def Game.steps (g : Game) : List Event → Option Game
  | [] => some g
  | e :: es =>
    match g.step e with
    | none => none
    | some g' => g'.steps es

/-- Geometric opposite of a direction (the notion the no-reversal rule of
the spec is phrased with). -/
def Direction.opposite : Direction → Direction
  | Direction.Left => Direction.Right
  | Direction.Right => Direction.Left
  | Direction.Up => Direction.Down
  | Direction.Down => Direction.Up

/-- The snake of gEat after its eating move: head pushed to (20,10), tail
retained because ate is true. -/
def sEat1 : Snake :=
  { body := [(20, 10), (19, 10), (18, 10), (17, 10)]
    dir := Direction.Right
    grow_on_next := false }

/-- gEat after one tick with draw list [(0,0)]: score and high score 5,
grow flag set, food respawned at (0,0), GameOver from the wall. -/
def gEatAfter : Game :=
  { snake := { body := [(20, 10), (19, 10), (18, 10), (17, 10)]
               dir := Direction.Right
               grow_on_next := true }
    food := (0, 0)
    score := 5
    high_score := 5
    state := GameState.GameOver }

/-- gWall after one tick: head at (-1,10), GameOver, high score raised to
the score 3. -/
def gWallAfter : Game :=
  { snake := { body := [(-1, 10), (0, 10), (1, 10)]
               dir := Direction.Left
               grow_on_next := false }
    food := (5, 5)
    score := 3
    high_score := 3
    state := GameState.GameOver }

/-- gWallAfter after reset with draws [(10,10),(3,4)]: fresh snake, food
(3,4), score 0, high score kept. -/
def gResetAfter : Game :=
  { snake := Snake.new
    food := (3, 4)
    score := 0
    high_score := 3
    state := GameState.Start }

/-- The game main builds once the initial spawn_food lands on (0,0). -/
def gStartFood0 : Game :=
  { snake := Snake.new
    food := (0, 0)
    score := 0
    high_score := 0
    state := GameState.Start }

/-- gStartFood0 after pressing Space and one tick. -/
def gC3 : Game :=
  { snake := { body := [(11, 10), (10, 10), (9, 10)]
               dir := Direction.Right
               grow_on_next := false }
    food := (0, 0)
    score := 0
    high_score := 0
    state := GameState.Running }

/-- gStart after a buffered Up direction is applied at the tick boundary
while still on the Start screen. -/
def gStartUp : Game :=
  { snake := { body := [(10, 10), (9, 10), (8, 10)]
               dir := Direction.Up
               grow_on_next := false }
    food := (5, 5)
    score := 0
    high_score := 0
    state := GameState.Start }

/-! ### Shared helper lemmas -/

/-- The initial three-segment snake of the spec scenarios (equal to
Snake.new on the 20 by 20 grid). -/
def snake0 : Snake :=
  { body := [(10, 10), (9, 10), (8, 10)]
    dir := Direction.Right
    grow_on_next := false }

/-- Scenario A result: snake0 after one non-eating move to the right. -/
def snakeA1 : Snake :=
  { body := [(11, 10), (10, 10), (9, 10)]
    dir := Direction.Right
    grow_on_next := false }

/-- snake0 after the move that eats food at (11,10): the tail is retained
already at the eating tick. -/
def snakeB1 : Snake :=
  { body := [(11, 10), (10, 10), (9, 10), (8, 10)]
    dir := Direction.Right
    grow_on_next := false }

/-- snakeB1.grow after one further non-eating move: the pendingGrowth flag
retains the tail a second time. -/
def snakeB2 : Snake :=
  { body := [(12, 10), (11, 10), (10, 10), (9, 10), (8, 10)]
    dir := Direction.Right
    grow_on_next := false }

/-- A concrete game on the Start screen (the state main constructs before
the first spawn_food call). -/
def gStart : Game :=
  { snake := Snake.new
    food := (5, 5)
    score := 0
    high_score := 0
    state := GameState.Start }

/-- A concrete Running game used to exercise the input rules. -/
def gRun : Game :=
  { snake := snake0
    food := (5, 5)
    score := 0
    high_score := 0
    state := GameState.Running }

/-- A Running game whose next move both eats the food at (20,10) and
leaves the grid. -/
def gEat : Game :=
  { snake := { body := [(19, 10), (18, 10), (17, 10)]
               dir := Direction.Right
               grow_on_next := false }
    food := (20, 10)
    score := 4
    high_score := 2
    state := GameState.Running }

/-- Scenario D: a Running game at the left wall heading Left. -/
def gWall : Game :=
  { snake := { body := [(0, 10), (1, 10), (2, 10)]
               dir := Direction.Left
               grow_on_next := false }
    food := (5, 5)
    score := 3
    high_score := 1
    state := GameState.Running }

lemma spawn_food_from_not_mem (body : List (Int × Int)) :
    ∀ (draws : List (Int × Int)) (p : Int × Int),
      spawn_food_from body draws = some p → p ∉ body := by
  intro draws
  induction draws with
  | nil => intro p h; simp [spawn_food_from] at h
  | cons q rest ih =>
    intro p h
    by_cases hq : body.contains q
    · rw [spawn_food_from, if_pos hq] at h
      exact ih p h
    · rw [spawn_food_from, if_neg hq] at h
      obtain rfl : q = p := Option.some.inj h
      simpa using hq

lemma Game.spawn_food_char (g : Game) (draws : List (Int × Int)) (g' : Game)
    (h : g.spawn_food draws = some g') :
    g'.snake = g.snake ∧ g'.score = g.score ∧
      g'.high_score = g.high_score ∧ g'.state = g.state ∧
      g'.food ∉ g.snake.body := by
  unfold Game.spawn_food at h
  cases hsp : spawn_food_from g.snake.body draws with
  | none => rw [hsp] at h; simp at h
  | some p =>
    rw [hsp] at h
    obtain rfl : { g with food := p } = g' := Option.some.inj h
    exact ⟨rfl, rfl, rfl, rfl, spawn_food_from_not_mem _ _ _ hsp⟩

lemma Snake.grow_body (s : Snake) : s.grow.body = s.body := rfl

lemma Snake.grow_head (s : Snake) : s.grow.head = s.head := rfl

lemma Snake.grow_self_collision (s : Snake) :
    s.grow.self_collision = s.self_collision := rfl

lemma Game.spawn_food_eq (g : Game) (draws : List (Int × Int)) (g' : Game)
    (h : g.spawn_food draws = some g') :
    ∃ p, spawn_food_from g.snake.body draws = some p ∧
      g' = { g with food := p } := by
  unfold Game.spawn_food at h
  cases hsp : spawn_food_from g.snake.body draws with
  | none => rw [hsp] at h; simp at h
  | some p => rw [hsp] at h; exact ⟨p, rfl, (Option.some.inj h).symm⟩

lemma Game.update_char (g : Game) (draws : List (Int × Int)) (g' : Game)
    (hrun : g.state = GameState.Running)
    (h : Game.update g draws = some g') :
    ∃ s1 ate x y sc,
      g.snake.update g.food = some (s1, ate) ∧
      s1.head = some (x, y) ∧ s1.self_collision = some sc ∧
      g'.snake = (if ate then s1.grow else s1) ∧
      g'.score = (if ate then g.score + 1 else g.score) ∧
      (ate = true → g'.food ∉ s1.body) ∧
      (ate = false → g'.food = g.food) ∧
      ((x < 0 ∨ 20 ≤ x ∨ y < 0 ∨ 20 ≤ y ∨ sc = true) →
        g'.state = GameState.GameOver ∧
        g'.high_score =
          (if g'.score > g.high_score then g'.score else g.high_score)) ∧
      (¬(x < 0 ∨ 20 ≤ x ∨ y < 0 ∨ 20 ≤ y ∨ sc = true) →
        g'.state = GameState.Running ∧ g'.high_score = g.high_score) := by
  unfold Game.update at h
  rw [if_neg (by simp [hrun])] at h
  cases hu : g.snake.update g.food with
  | none => rw [hu] at h; simp at h
  | some p =>
    obtain ⟨s1, ate⟩ := p
    rw [hu] at h
    refine ⟨s1, ate, ?_⟩
    cases ate with
    | false =>
      simp only [Bool.false_eq_true, if_false] at h
      cases hh : s1.head with
      | none =>
        rw [show ({ g with snake := s1 } : Game).snake.head = s1.head from
          rfl, hh] at h
        simp at h
      | some xy =>
        obtain ⟨x, y⟩ := xy
        cases hsc : s1.self_collision with
        | none =>
          rw [show ({ g with snake := s1 } : Game).snake.head = s1.head from
            rfl, hh,
            show ({ g with snake := s1 } : Game).snake.self_collision =
              s1.self_collision from rfl, hsc] at h
          simp at h
        | some sc =>
          rw [show ({ g with snake := s1 } : Game).snake.head = s1.head from
            rfl, hh,
            show ({ g with snake := s1 } : Game).snake.self_collision =
              s1.self_collision from rfl, hsc] at h
          simp only [] at h
          refine ⟨x, y, sc, rfl, rfl, rfl, ?_⟩
          by_cases hcol : (x < 0 ∨ 20 ≤ x ∨ y < 0 ∨ 20 ≤ y ∨ sc = true)
          · have hcolb : (decide (x < 0) || decide (GRID_SIZE.1 ≤ x) ||
                decide (y < 0) || decide (GRID_SIZE.2 ≤ y) || sc) = true := by
              simp only [GRID_SIZE, Bool.or_eq_true, decide_eq_true_eq]
              tauto
            rw [if_pos hcolb] at h
            obtain rfl := Option.some.inj h
            simp [hcol]
          · have hcolb : ¬((decide (x < 0) || decide (GRID_SIZE.1 ≤ x) ||
                decide (y < 0) || decide (GRID_SIZE.2 ≤ y) || sc) = true) := by
              simp only [GRID_SIZE, Bool.or_eq_true, decide_eq_true_eq]
              tauto
            rw [if_neg hcolb] at h
            obtain rfl := Option.some.inj h
            simp [hcol, hrun]
    | true =>
      simp only [if_true] at h
      cases hspf : Game.spawn_food
          { g with snake := s1.grow, score := g.score + 1 } draws with
      | none => rw [hspf] at h; simp at h
      | some g2 =>
        rw [hspf] at h
        obtain ⟨p, hp, rfl⟩ := Game.spawn_food_eq _ _ _ hspf
        simp only [] at h
        rw [Snake.grow_head, Snake.grow_self_collision] at h
        cases hh : s1.head with
        | none => rw [hh] at h; simp at h
        | some xy =>
          obtain ⟨x, y⟩ := xy
          cases hsc : s1.self_collision with
          | none => rw [hh, hsc] at h; simp at h
          | some sc =>
            rw [hh, hsc] at h
            simp only [] at h
            refine ⟨x, y, sc, rfl, rfl, rfl, ?_⟩
            have hpmem : p ∉ s1.body := by
              have hnm := spawn_food_from_not_mem _ _ _ hp
              simpa [Snake.grow] using hnm
            by_cases hcol : (x < 0 ∨ 20 ≤ x ∨ y < 0 ∨ 20 ≤ y ∨ sc = true)
            · have hcolb : (decide (x < 0) || decide (GRID_SIZE.1 ≤ x) ||
                  decide (y < 0) || decide (GRID_SIZE.2 ≤ y) || sc) = true := by
                simp only [GRID_SIZE, Bool.or_eq_true, decide_eq_true_eq]
                tauto
              rw [if_pos hcolb] at h
              obtain rfl := Option.some.inj h
              simp [hcol, hpmem]
            · have hcolb : ¬((decide (x < 0) || decide (GRID_SIZE.1 ≤ x) ||
                  decide (y < 0) || decide (GRID_SIZE.2 ≤ y) || sc) = true) := by
                simp only [GRID_SIZE, Bool.or_eq_true, decide_eq_true_eq]
                tauto
              rw [if_neg hcolb] at h
              obtain rfl := Option.some.inj h
              simp [hcol, hrun, hpmem]

lemma spawn_food_from_none_of_full (body : List (Int × Int))
    (draws : List (Int × Int))
    (hfull : ∀ p : Int × Int, 0 ≤ p.1 → p.1 < 20 → 0 ≤ p.2 → p.2 < 20 →
      p ∈ body)
    (hdraws : ∀ p ∈ draws, 0 ≤ p.1 ∧ p.1 < 20 ∧ 0 ≤ p.2 ∧ p.2 < 20) :
    spawn_food_from body draws = none := by
  induction draws with
  | nil => rfl
  | cons q rest ih =>
    obtain ⟨h1, h2, h3, h4⟩ := hdraws q (List.mem_cons_self ..)
    have hmem : q ∈ body := hfull q h1 h2 h3 h4
    rw [spawn_food_from, if_pos (by simpa using hmem)]
    exact ih (fun p hp => hdraws p (List.mem_cons_of_mem _ hp))

lemma Game.pressed_cases (g : Game) (btn : Key) (draws : List (Int × Int))
    (g' : Game) (h : g.pressed btn draws = some g') :
    g'.high_score = g.high_score ∧
      (g'.snake.body = g.snake.body ∨ g'.snake.body = Snake.new.body) := by
  unfold Game.pressed at h
  cases hst : g.state with
  | Start =>
    rw [hst] at h
    simp only [] at h
    by_cases hbtn : btn = Key.Space
    · rw [if_pos hbtn] at h
      obtain rfl := Option.some.inj h
      exact ⟨rfl, Or.inl rfl⟩
    · rw [if_neg hbtn] at h
      obtain rfl := Option.some.inj h
      exact ⟨rfl, Or.inl rfl⟩
  | GameOver =>
    rw [hst] at h
    simp only [] at h
    by_cases hbtn : btn = Key.Space
    · rw [if_pos hbtn] at h
      unfold Game.reset at h
      obtain ⟨p, hp, rfl⟩ := Game.spawn_food_eq _ _ _ h
      exact ⟨rfl, Or.inr rfl⟩
    · rw [if_neg hbtn] at h
      obtain rfl := Option.some.inj h
      exact ⟨rfl, Or.inl rfl⟩
  | Running =>
    rw [hst] at h
    simp only [] at h
    obtain rfl := Option.some.inj h
    exact ⟨rfl, Or.inl rfl⟩

lemma Snake.update_len (s : Snake) (food : Int × Int) (s1 : Snake)
    (ate : Bool) (h : Snake.update s food = some (s1, ate)) :
    s.body.length ≤ s1.body.length := by
  unfold Snake.update at h
  cases hb : s.body with
  | nil => rw [hb] at h; simp at h
  | cons hd t =>
    rw [hb] at h
    simp only [] at h
    split at h
    · obtain ⟨rfl, rfl⟩ := Prod.mk.injEq .. ▸ Option.some.inj h
      simp [List.length_dropLast]
    · split at h
      · obtain ⟨rfl, rfl⟩ := Prod.mk.injEq .. ▸ Option.some.inj h
        simp
      · obtain ⟨rfl, rfl⟩ := Prod.mk.injEq .. ▸ Option.some.inj h
        simp

lemma Snake.update_pg_len (s : Snake) (food : Int × Int) (s2 : Snake)
    (ate : Bool) (hpg : s.grow_on_next = true)
    (h : Snake.update s food = some (s2, ate)) :
    s2.body.length = s.body.length + 1 := by
  unfold Snake.update at h
  cases hb : s.body with
  | nil => rw [hb] at h; simp at h
  | cons hd t =>
    rw [hb] at h
    simp only [] at h
    split at h
    · next hcond =>
      rw [hpg] at hcond
      simp at hcond
    · obtain ⟨rfl, -⟩ := Prod.mk.injEq .. ▸ Option.some.inj h
      simp

lemma Game.update_not_running (g : Game) (draws : List (Int × Int))
    (hst : g.state ≠ GameState.Running) : Game.update g draws = some g := by
  unfold Game.update
  rw [if_pos (by simpa using hst)]

lemma Game.step_len (g : Game) (e : Event) (g' : Game)
    (h : Game.step g e = some g') (hg : 3 ≤ g.snake.body.length) :
    3 ≤ g'.snake.body.length := by
  cases e with
  | tick draws =>
    by_cases hrun : g.state = GameState.Running
    · obtain ⟨s1, ate, x, y, sc, hu, _, _, hsn, _⟩ :=
        Game.update_char g draws g' hrun h
      have hlen := Snake.update_len _ _ _ _ hu
      cases ate with
      | false =>
        simp only [Bool.false_eq_true, if_false] at hsn
        rw [hsn]
        omega
      | true =>
        simp only [if_true] at hsn
        rw [hsn, Snake.grow_body]
        omega
    · rw [show Game.step g (Event.tick draws) = Game.update g draws from rfl,
        Game.update_not_running g draws hrun] at h
      obtain rfl := Option.some.inj h
      exact hg
  | key k draws =>
    obtain ⟨-, hbody⟩ := Game.pressed_cases g k draws g' h
    cases hbody with
    | inl hb => rw [hb]; exact hg
    | inr hb => rw [hb]; decide
  | applyPending d =>
    obtain rfl := Option.some.inj h
    exact hg

lemma Game.steps_len (es : List Event) (g : Game) (g' : Game)
    (h : Game.steps g es = some g') (hg : 3 ≤ g.snake.body.length) :
    3 ≤ g'.snake.body.length := by
  induction es generalizing g with
  | nil => obtain rfl := Option.some.inj h; exact hg
  | cons e es ih =>
    unfold Game.steps at h
    cases hstep : g.step e with
    | none => rw [hstep] at h; simp at h
    | some g1 =>
      rw [hstep] at h
      exact ih g1 h (Game.step_len g e g1 hstep hg)

lemma Game.step_high (g : Game) (e : Event) (g' : Game)
    (h : Game.step g e = some g') (hne : g'.high_score ≠ g.high_score) :
    g.state = GameState.Running ∧ g'.state = GameState.GameOver ∧
      g'.high_score = g'.score ∧ g.high_score < g'.score := by
  cases e with
  | tick draws =>
    by_cases hrun : g.state = GameState.Running
    · obtain ⟨s1, ate, x, y, sc, hu, hh, hsc, hsn, hscore, hf1, hf0, hcy, hcn⟩ :=
        Game.update_char g draws g' hrun h
      by_cases hcol : (x < 0 ∨ 20 ≤ x ∨ y < 0 ∨ 20 ≤ y ∨ sc = true)
      · obtain ⟨hst', hhs'⟩ := hcy hcol
        by_cases hgt : g'.score > g.high_score
        · rw [if_pos hgt] at hhs'
          exact ⟨hrun, hst', hhs', hhs' ▸ hgt⟩
        · rw [if_neg hgt] at hhs'
          exact absurd hhs' hne
      · obtain ⟨-, hhs'⟩ := hcn hcol
        exact absurd hhs' hne
    · rw [show Game.step g (Event.tick draws) = Game.update g draws from rfl,
        Game.update_not_running g draws hrun] at h
      obtain rfl := Option.some.inj h
      exact absurd rfl hne
  | key k draws =>
    obtain ⟨hhs, -⟩ := Game.pressed_cases g k draws g' h
    exact absurd hhs hne
  | applyPending d =>
    obtain rfl := Option.some.inj h
    exact absurd rfl hne

lemma Game.step_high_mono (g : Game) (e : Event) (g' : Game)
    (h : Game.step g e = some g') : g.high_score ≤ g'.high_score := by
  by_cases hne : g'.high_score = g.high_score
  · rw [hne]
  · obtain ⟨-, -, heq, hlt⟩ := Game.step_high g e g' h hne
    rw [heq]
    exact le_of_lt hlt

lemma Game.steps_high_mono (es : List Event) (g : Game) (g' : Game)
    (h : Game.steps g es = some g') : g.high_score ≤ g'.high_score := by
  induction es generalizing g with
  | nil => obtain rfl := Option.some.inj h; exact le_refl _
  | cons e es ih =>
    unfold Game.steps at h
    cases hstep : g.step e with
    | none => rw [hstep] at h; simp at h
    | some g1 =>
      rw [hstep] at h
      exact le_trans (Game.step_high_mono g e g1 hstep) (ih g1 h)

/-! ### Claims -/

/-- Claim C1: for every snake state with a non-empty body, any heading and
any pendingGrowth flag, and every food cell, the move step computes the new
head as the current head offset one cell along the heading (Left: x-1,
Right: x+1, Up: y-1, Down: y+1), pushes it at the front, returns ate =
(newHead = food), removes the last element iff ate is false and
pendingGrowth is false, and clears pendingGrowth while keeping the tail
when pendingGrowth is true; in particular Scenario A: from body
[(10,10),(9,10),(8,10)] heading Right, move with food (99,99) returns
false and yields body [(11,10),(10,10),(9,10)]. -/
theorem C1_move_step (s : Snake) (hd : Int × Int) (t : List (Int × Int))
    (food nh : Int × Int) (s' : Snake) (ate : Bool)
    (hb : s.body = hd :: t)
    (hnh : nh = (match s.dir with
      | Direction.Left => (hd.1 - 1, hd.2)
      | Direction.Right => (hd.1 + 1, hd.2)
      | Direction.Up => (hd.1, hd.2 - 1)
      | Direction.Down => (hd.1, hd.2 + 1)))
    (hup : Snake.update s food = some (s', ate)) :
    (ate = true ↔ nh = food) ∧
    s'.dir = s.dir ∧
    s'.grow_on_next = false ∧
    s'.body.head? = some nh ∧
    (ate = false → s.grow_on_next = false →
      s'.body = (nh :: s.body).dropLast) ∧
    (ate = true ∨ s.grow_on_next = true → s'.body = nh :: s.body) ∧
    Snake.update
        { body := [(10, 10), (9, 10), (8, 10)]
          dir := Direction.Right
          grow_on_next := false } (99, 99) =
      some ({ body := [(11, 10), (10, 10), (9, 10)]
              dir := Direction.Right
              grow_on_next := false }, false) := by
  subst hnh
  unfold Snake.update at hup
  rw [hb] at hup
  simp only [] at hup
  split at hup
  · next hcond =>
    obtain ⟨hflags1, hflags2⟩ := by simpa using hcond
    obtain ⟨rfl, rfl⟩ := Prod.mk.injEq .. ▸ Option.some.inj hup
    refine ⟨by simp, rfl, by simpa using hflags2, rfl, ?_, ?_, by decide⟩
    · intro _ _
      rw [hb]
    · intro hcase
      rcases hcase with hcase | hcase
      · rw [decide_eq_true_eq] at hcase
        exact absurd hcase hflags1
      · rw [hflags2] at hcase
        simp at hcase
  · split at hup
    · next hpg =>
      obtain ⟨rfl, rfl⟩ := Prod.mk.injEq .. ▸ Option.some.inj hup
      refine ⟨by simp, rfl, rfl, rfl, ?_, ?_, by decide⟩
      · intro _ hpgf
        rw [hpg] at hpgf
        simp at hpgf
      · intro _
        rw [hb]
    · next hcond₂ hpg =>
      have pgf : s.grow_on_next = false := by simpa using hpg
      rw [pgf] at hcond₂
      simp only [Bool.not_false, Bool.and_true, Bool.not_eq_true',
        decide_eq_false_iff_not, not_not] at hcond₂
      obtain ⟨rfl, rfl⟩ := Prod.mk.injEq .. ▸ Option.some.inj hup
      refine ⟨by simp, rfl, by simpa using pgf, rfl, ?_, ?_, by decide⟩
      · intro hatef _
        simp [hcond₂] at hatef
      · intro _
        rw [hb]

/-- Witness for C1: Scenario A evaluated through C1_move_step. -/
theorem C1_move_step_witness :
    (false = true ↔ ((11, 10) : Int × Int) = (99, 99)) ∧
    snakeA1.dir = snake0.dir ∧
    snakeA1.grow_on_next = false ∧
    snakeA1.body.head? = some (11, 10) ∧
    (false = false → snake0.grow_on_next = false →
      snakeA1.body = (((11, 10) : Int × Int) :: snake0.body).dropLast) ∧
    (false = true ∨ snake0.grow_on_next = true →
      snakeA1.body = ((11, 10) : Int × Int) :: snake0.body) ∧
    Snake.update
        { body := [(10, 10), (9, 10), (8, 10)]
          dir := Direction.Right
          grow_on_next := false } (99, 99) =
      some ({ body := [(11, 10), (10, 10), (9, 10)]
              dir := Direction.Right
              grow_on_next := false }, false) :=
  C1_move_step snake0 (10, 10) [(9, 10), (8, 10)] (99, 99) (11, 10)
    snakeA1 false (by decide) (by decide) (by decide)

/-- Claim C10: calling Game::update when the state is not Running is a
complete no-op: the very same game value is returned, so state, snake,
food, score and highScore are all unchanged. -/
theorem C10_update_no_op (g : Game) (draws : List (Int × Int))
    (h : g.state ≠ GameState.Running) : Game.update g draws = some g :=
  Game.update_not_running g draws h

/-- Witness for C10 on a concrete Start-state game. -/
theorem C10_update_no_op_witness : Game.update gStart [] = some gStart :=
  C10_update_no_op gStart [] (by decide)

/-- Counterexample to claim C5 as stated: at the tick that eats (Scenario
B, food at (11,10)) the body length is already 4, not the unchanged 3 the
claim asserts for tick T. -/
theorem C5_counterexample :
    Snake.update
        { body := [(10, 10), (9, 10), (8, 10)]
          dir := Direction.Right
          grow_on_next := false } (11, 10) =
      some ({ body := [(11, 10), (10, 10), (9, 10), (8, 10)]
              dir := Direction.Right
              grow_on_next := false }, true) ∧
    ¬ ([((11 : Int), (10 : Int)), (10, 10), (9, 10), (8, 10)]).length =
        ([((10 : Int), (10 : Int)), (9, 10), (8, 10)]).length := by
  exact ⟨by decide, by decide⟩

/-- Claim C5 (amended): an eat with no growth already pending lengthens the
body by 1 at the eating tick itself (the pop is skipped because ate is
true); grow() then sets pendingGrowth and the next (non-eating) move
lengthens the body by another 1 while consuming the flag, so each eat grows
the snake by 2 over ticks T and T+1, not by 1 at T+1 only. -/
theorem C5_growth_per_eat (s : Snake) (food : Int × Int) (s1 : Snake)
    (hpg : s.grow_on_next = false)
    (h1 : Snake.update s food = some (s1, true)) :
    s1.body.length = s.body.length + 1 ∧ s1.grow_on_next = false ∧
    ∀ (food2 : Int × Int) (s2 : Snake),
      Snake.update s1.grow food2 = some (s2, false) →
      s2.body.length = s1.body.length + 1 := by
  unfold Snake.update at h1
  cases hb : s.body with
  | nil => rw [hb] at h1; simp at h1
  | cons hd t =>
    rw [hb] at h1
    simp only [] at h1
    split at h1
    · next hcond =>
      obtain ⟨-, hate⟩ := Prod.mk.injEq .. ▸ Option.some.inj h1
      rw [hate] at hcond
      simp at hcond
    · split at h1
      · next hpgt =>
        rw [hpg] at hpgt
        simp at hpgt
      · obtain ⟨rfl, -⟩ := Prod.mk.injEq .. ▸ Option.some.inj h1
        refine ⟨by simp, by simpa using hpg, ?_⟩
        intro food2 s2 h2
        have hlen2 := Snake.update_pg_len _ food2 s2 false
          (by simp [Snake.grow]) h2
        rw [Snake.grow_body] at hlen2
        exact hlen2

/-- Witness for C5: Scenario B evaluated through C5_growth_per_eat: eat at
(11,10) gives length 4 at once, the following move gives length 5. -/
theorem C5_growth_per_eat_witness :
    snakeB1.body.length = snake0.body.length + 1 ∧
    snakeB1.grow_on_next = false ∧
    snakeB2.body.length = snakeB1.body.length + 1 :=
  have h := C5_growth_per_eat snake0 (11, 10) snakeB1 (by decide) (by decide)
  ⟨h.1, h.2.1, h.2.2 (99, 99) snakeB2 (by decide)⟩

/-- Claim C4: both heading-change sites (the buffered pending-direction
application in main and the direct key handling of Game::pressed in
Running) reject a proposal equal to the geometric opposite of the current
heading and accept any other proposal; hence the heading after an
input-driven change is never the opposite of the heading before it. -/
theorem C4_no_reversal :
    (∀ (g : Game) (d : Direction),
      (g.apply_pending d).snake.dir =
        (if d = g.snake.dir.opposite then g.snake.dir else d) ∧
      ¬ (g.apply_pending d).snake.dir = g.snake.dir.opposite) ∧
    (∀ (g : Game) (k : Key) (draws : List (Int × Int)) (g' : Game),
      g.state = GameState.Running → g.pressed k draws = some g' →
      (∀ d, keyDir k = some d →
        g'.snake.dir = (if d = g.snake.dir.opposite then g.snake.dir else d)) ∧
      ¬ g'.snake.dir = g.snake.dir.opposite) := by
  constructor
  · intro g d
    cases hdir : g.snake.dir <;> cases d <;>
      simp [Game.apply_pending, Direction.opposite, hdir]
  · intro g k draws g' hrun h
    unfold Game.pressed at h
    rw [hrun] at h
    simp only [] at h
    obtain rfl := Option.some.inj h
    cases k <;> cases hdir : g.snake.dir <;>
      simp [keyDir, Direction.opposite, hdir]

/-- Witness for C4: in a Running game heading Right, the Left key is
rejected and the heading stays Right (Scenario C). -/
theorem C4_no_reversal_witness :
    gRun.snake.dir =
      (if Direction.Left = gRun.snake.dir.opposite then gRun.snake.dir
       else Direction.Left) ∧
    ¬ gRun.snake.dir = gRun.snake.dir.opposite :=
  have h := C4_no_reversal.2 gRun Key.Left [] gRun rfl (by decide)
  ⟨h.1 Direction.Left rfl, h.2⟩

/-- Claim C2: in a Running tick, movement and eating are resolved before
the collision check: the score is incremented by exactly 1 on ate (with
the grow flag set and the food respawned off the body), the walls (x < 0,
x >= 20, y < 0, y >= 20) and self-collision are then tested on the moved
head, and a move that both eats and exits the grid still has its score
increment in the GameOver state. -/
theorem C2_update_order (g : Game) (draws : List (Int × Int)) (g' : Game)
    (s1 : Snake) (ate : Bool) (x y : Int) (sc : Bool)
    (hrun : g.state = GameState.Running)
    (hup : Game.update g draws = some g')
    (hmv : g.snake.update g.food = some (s1, ate))
    (hh : s1.head = some (x, y))
    (hsc : s1.self_collision = some sc) :
    g'.score = (if ate = true then g.score + 1 else g.score) ∧
    (ate = true → g'.snake = s1.grow ∧ g'.food ∉ g'.snake.body) ∧
    (ate = false → g'.snake = s1 ∧ g'.food = g.food) ∧
    g'.state = (if x < 0 ∨ 20 ≤ x ∨ y < 0 ∨ 20 ≤ y ∨ sc = true
                then GameState.GameOver else GameState.Running) ∧
    (ate = true → (x < 0 ∨ 20 ≤ x ∨ y < 0 ∨ 20 ≤ y) →
      g'.score = g.score + 1 ∧ g'.state = GameState.GameOver) := by
  obtain ⟨s1', ate', x', y', sc', hu', hh', hsc', hsn, hscore, hf1, hf0,
    hcy, hcn⟩ := Game.update_char g draws g' hrun hup
  rw [hmv] at hu'
  obtain ⟨rfl, rfl⟩ := Prod.mk.injEq .. ▸ Option.some.inj hu'
  rw [hh] at hh'
  obtain ⟨rfl, rfl⟩ := Prod.mk.injEq .. ▸ Option.some.inj hh'
  rw [hsc] at hsc'
  obtain rfl := Option.some.inj hsc'
  refine ⟨hscore, ?_, ?_, ?_, ?_⟩
  · intro hate
    subst hate
    have hsn' : g'.snake = s1.grow := by simpa using hsn
    refine ⟨hsn', ?_⟩
    rw [hsn', Snake.grow_body]
    exact hf1 rfl
  · intro hate
    subst hate
    exact ⟨by simpa using hsn, hf0 rfl⟩
  · by_cases hcol : (x < 0 ∨ 20 ≤ x ∨ y < 0 ∨ 20 ≤ y ∨ sc = true)
    · rw [if_pos hcol]
      exact (hcy hcol).1
    · rw [if_neg hcol]
      exact (hcn hcol).1
  · intro hate hexit
    subst hate
    have hcol : (x < 0 ∨ 20 ≤ x ∨ y < 0 ∨ 20 ≤ y ∨ sc = true) := by
      tauto
    exact ⟨by simpa using hscore, (hcy hcol).1⟩

/-- Witness for C2: gEat eats the food at (20,10) and leaves the grid in
the same move; the score increment survives into the GameOver state. -/
theorem C2_update_order_witness :
    gEatAfter.score = (if true = true then gEat.score + 1 else gEat.score) ∧
    (true = true →
      gEatAfter.snake = sEat1.grow ∧
      gEatAfter.food ∉ gEatAfter.snake.body) ∧
    (true = false → gEatAfter.snake = sEat1 ∧ gEatAfter.food = gEat.food) ∧
    gEatAfter.state =
      (if (20 : Int) < 0 ∨ 20 ≤ (20 : Int) ∨ (10 : Int) < 0 ∨
          20 ≤ (10 : Int) ∨ false = true
        then GameState.GameOver else GameState.Running) ∧
    (true = true →
      ((20 : Int) < 0 ∨ 20 ≤ (20 : Int) ∨ (10 : Int) < 0 ∨ 20 ≤ (10 : Int)) →
      gEatAfter.score = gEat.score + 1 ∧
      gEatAfter.state = GameState.GameOver) :=
  C2_update_order gEat [(0, 0)] gEatAfter sEat1 true 20 10 false rfl
    (by decide) (by decide) (by decide) (by decide)

/-- Claim C3: starting from the game main constructs (fresh snake, initial
spawn_food) and applying any sequence of key presses, pending-direction
applications and ticks, the snake body always has length at least 3, so it
is never empty and head() never hits its empty-body panic. -/
theorem C3_length_invariant (draws0 : List (Int × Int)) (g0 : Game)
    (es : List Event) (g : Game)
    (hinit : Game.init draws0 = some g0)
    (hsteps : Game.steps g0 es = some g) :
    3 ≤ g.snake.body.length ∧ ¬ g.snake.body = [] := by
  have h0 : 3 ≤ g0.snake.body.length := by
    unfold Game.init at hinit
    obtain ⟨p, hp, rfl⟩ := Game.spawn_food_eq _ _ _ hinit
    simp [Snake.new]
  have hg := Game.steps_len es g0 g hsteps h0
  refine ⟨hg, ?_⟩
  intro hnil
  rw [hnil] at hg
  simp at hg

/-- Witness for C3: press Space, then one tick, from the initial game. -/
theorem C3_length_invariant_witness :
    3 ≤ gC3.snake.body.length ∧ ¬ gC3.snake.body = [] :=
  C3_length_invariant [(0, 0)] gStartFood0
    [Event.key Key.Space [], Event.tick []] gC3 (by decide) (by decide)

/-- Claim C6: spawn_food assigns the first drawn cell not contained in the
snake body to food and changes nothing else, so right after it the food is
off the body; a draw sequence succeeding exists whenever some in-grid cell
is free, and on a board whose every in-grid cell is occupied no sequence
of in-grid draws ever succeeds (the source loop would never terminate). -/
theorem C6_spawn_food :
    (∀ (body draws : List (Int × Int)) (p : Int × Int),
      spawn_food_from body draws = some p → p ∉ body) ∧
    (∀ (g : Game) (draws : List (Int × Int)) (g' : Game),
      g.spawn_food draws = some g' →
      g'.food ∉ g'.snake.body ∧ g'.snake = g.snake ∧ g'.score = g.score ∧
      g'.high_score = g.high_score ∧ g'.state = g.state) ∧
    (∀ (g : Game) (p : Int × Int),
      0 ≤ p.1 → p.1 < 20 → 0 ≤ p.2 → p.2 < 20 → p ∉ g.snake.body →
      ∃ (draws : List (Int × Int)) (g' : Game),
        g.spawn_food draws = some g') ∧
    (∀ (g : Game) (draws : List (Int × Int)),
      (∀ p : Int × Int, 0 ≤ p.1 → p.1 < 20 → 0 ≤ p.2 → p.2 < 20 →
        p ∈ g.snake.body) →
      (∀ p ∈ draws, 0 ≤ p.1 ∧ p.1 < 20 ∧ 0 ≤ p.2 ∧ p.2 < 20) →
      g.spawn_food draws = none) := by
  refine ⟨spawn_food_from_not_mem, ?_, ?_, ?_⟩
  · intro g draws g' h
    obtain ⟨hsn, hscq, hhs, hst, hfood⟩ := Game.spawn_food_char g draws g' h
    exact ⟨by rw [hsn]; exact hfood, hsn, hscq, hhs, hst⟩
  · intro g p _ _ _ _ hpm
    refine ⟨[p], { g with food := p }, ?_⟩
    have hc : g.snake.body.contains p = false := by simpa using hpm
    simp [Game.spawn_food, spawn_food_from, hc, hpm]
  · intro g draws hfull hdraws
    unfold Game.spawn_food
    rw [spawn_food_from_none_of_full g.snake.body draws hfull hdraws]
    rfl

/-- Witness for C6: spawning on the initial game with draws
[(10,10),(0,0)] rejects the occupied (10,10) and lands on (0,0). -/
theorem C6_spawn_food_witness :
    gStartFood0.food ∉ gStartFood0.snake.body ∧
    gStartFood0.snake = gStart.snake ∧
    gStartFood0.score = gStart.score ∧
    gStartFood0.high_score = gStart.high_score ∧
    gStartFood0.state = gStart.state :=
  C6_spawn_food.2.1 gStart [(10, 10), (0, 0)] gStartFood0 (by decide)

/-- Claim C7: the high score never decreases over any sequence of key
presses, ticks and pending-direction applications, and whenever it changes
at all, that step is a Running-to-GameOver transition that sets it to the
final score, which strictly exceeded the old high score. -/
theorem C7_high_score_monotone :
    (∀ (g : Game) (es : List Event) (g' : Game),
      Game.steps g es = some g' → g.high_score ≤ g'.high_score) ∧
    (∀ (g : Game) (e : Event) (g' : Game),
      Game.step g e = some g' → ¬ g'.high_score = g.high_score →
      g.state = GameState.Running ∧ g'.state = GameState.GameOver ∧
      g'.high_score = g'.score ∧ g.high_score < g'.score) :=
  ⟨fun g es g' h => Game.steps_high_mono es g g' h,
   fun g e g' h hne => Game.step_high g e g' h hne⟩

/-- Witness for C7: Scenario D: gWall hits the left wall in one tick, the
high score rises from 1 to the score 3 exactly at the GameOver
transition. -/
theorem C7_high_score_monotone_witness :
    gWall.state = GameState.Running ∧
    gWallAfter.state = GameState.GameOver ∧
    gWallAfter.high_score = gWallAfter.score ∧
    gWall.high_score < gWallAfter.score :=
  C7_high_score_monotone.2 gWall (Event.tick []) gWallAfter
    (by decide) (by decide)

/-- Claim C8: reset zeroes the score, keeps the high score, returns to
Start, rebuilds the snake as the fresh centred 3-segment body heading
Right, and places a food cell off the new body. -/
theorem C8_reset (g : Game) (draws : List (Int × Int)) (g' : Game)
    (h : Game.reset g draws = some g') :
    g'.score = 0 ∧ g'.high_score = g.high_score ∧
    g'.state = GameState.Start ∧ g'.snake = Snake.new ∧
    Snake.new.body = [(10, 10), (9, 10), (8, 10)] ∧
    Snake.new.dir = Direction.Right ∧ Snake.new.body.length = 3 ∧
    g'.food ∉ g'.snake.body := by
  unfold Game.reset at h
  obtain ⟨p, hp, rfl⟩ := Game.spawn_food_eq _ _ _ h
  refine ⟨rfl, rfl, rfl, rfl, by decide, by decide, by decide, ?_⟩
  have hnm := spawn_food_from_not_mem _ _ _ hp
  simpa using hnm

/-- Witness for C8: Scenario E: reset from the GameOver game gWallAfter
with draws [(10,10),(3,4)]. -/
theorem C8_reset_witness :
    gResetAfter.score = 0 ∧ gResetAfter.high_score = gWallAfter.high_score ∧
    gResetAfter.state = GameState.Start ∧ gResetAfter.snake = Snake.new ∧
    Snake.new.body = [(10, 10), (9, 10), (8, 10)] ∧
    Snake.new.dir = Direction.Right ∧ Snake.new.body.length = 3 ∧
    gResetAfter.food ∉ gResetAfter.snake.body :=
  C8_reset gWallAfter [(10, 10), (3, 4)] gResetAfter (by decide)

/-- Counterexample to claim C9 as stated: on the Start screen a
directional input is not ignored by the program: the main loop buffers the
Up key without consulting the state and applies it at the next tick
boundary, so the heading changes from Right to Up while the state is still
Start. -/
theorem C9_counterexample :
    main_key (gStart, none) Key.Up [] = some (gStart, some Direction.Up) ∧
    main_tick (gStart, some Direction.Up) [] = some (gStartUp, none) ∧
    gStart.state = GameState.Start ∧ gStartUp.state = GameState.Start ∧
    gStart.snake.dir = Direction.Right ∧
    gStartUp.snake.dir = Direction.Up ∧
    ¬ gStartUp.snake.dir = gStart.snake.dir := by decide

/-- Claim C9 (amended): in Start and GameOver every input that reaches
Game::pressed other than the activate key is ignored completely; a
directional input, however, is buffered by the main loop regardless of
state (leaving the game unchanged at press time) and is applied to the
snake heading, subject to the reversal rule, at the next tick boundary
even in Start or GameOver; state, body, food, score and highScore still
never change there — only the heading can. -/
theorem C9_state_screen_inputs :
    (∀ (g : Game) (k : Key) (draws : List (Int × Int)),
      (g.state = GameState.Start ∨ g.state = GameState.GameOver) →
      ¬ k = Key.Space → g.pressed k draws = some g) ∧
    (∀ (g : Game) (k : Key) (d : Direction) (draws : List (Int × Int)),
      keyDir k = some d → main_key (g, none) k draws = some (g, some d)) ∧
    (∀ (g : Game) (d : Direction) (draws : List (Int × Int))
      (g' : Game) (p' : Option Direction),
      ¬ g.state = GameState.Running →
      main_tick (g, some d) draws = some (g', p') →
      p' = none ∧ g'.snake.body = g.snake.body ∧ g'.food = g.food ∧
      g'.score = g.score ∧ g'.high_score = g.high_score ∧
      g'.state = g.state ∧
      g'.snake.dir =
        (if d = g.snake.dir.opposite then g.snake.dir else d)) := by
  refine ⟨?_, ?_, ?_⟩
  · intro g k draws hst hk
    unfold Game.pressed
    rcases hst with hst | hst <;> rw [hst] <;> simp only [] <;>
      rw [if_neg hk]
  · intro g k d draws hkd
    unfold main_key
    simp only []
    rw [hkd]
  · intro g d draws g' p' hst h
    unfold main_tick at h
    simp only [] at h
    rw [Game.update_not_running (g.apply_pending d) draws
      (by simpa [Game.apply_pending] using hst)] at h
    obtain ⟨rfl, rfl⟩ := Prod.mk.injEq .. ▸ Option.some.inj h
    refine ⟨rfl, rfl, rfl, rfl, rfl, rfl, ?_⟩
    cases hdir : g.snake.dir <;> cases d <;>
      simp [Game.apply_pending, Direction.opposite, hdir]

/-- Witness for C9 (amended): the buffered Up direction applied on the
Start screen changes only the heading. -/
theorem C9_state_screen_inputs_witness :
    (none : Option Direction) = none ∧
    gStartUp.snake.body = gStart.snake.body ∧
    gStartUp.food = gStart.food ∧
    gStartUp.score = gStart.score ∧
    gStartUp.high_score = gStart.high_score ∧
    gStartUp.state = gStart.state ∧
    gStartUp.snake.dir =
      (if Direction.Up = gStart.snake.dir.opposite then gStart.snake.dir
       else Direction.Up) :=
  C9_state_screen_inputs.2.2 gStart Direction.Up [] gStartUp none
    (by decide) (by decide)

end Copperhead
